import Mathlib

/-!
# Shallow embedding of `sixtube_simple.ino`

The program is a single Arduino sketch driving a six-tube nixie clock.
Each execution of `loop()` is one scan cycle: sample the buttons, read the
DS3231 real-time clock into global variables, run the automatic GMT/BST
switch, handle set-mode button releases, compose the six display digits and
refresh the display (with an optional fade), and possibly run the cathode
cleaning cycle.

The definitions below embed, phase by phase, the state-mutating fragments of
that loop.  Hardware effects (pin writes, `delay`, the RTC write) are
represented by the data handed to them: the digit array composed for the
tubes, and the adjustment issued to the RTC.
-/

namespace Sixtube

/-- `#define PERSIST 7` — milliseconds each tube pair is lit per scan, and the
starting value of the fade-out counter. -/
def PERSIST : Nat := 7

/-- `#define FSKIP 2` — fade calculations run on every 2nd scan. -/
def FSKIP : Nat := 2

/-- `#define TOFF 10` — out-of-range value displayed as blank. -/
def TOFF : Nat := 10

/-- `#define CLEAN 350` — dwell per digit during the cleaning cycle. -/
def CLEAN : Nat := 350

/-- The six-cell digit array `nNumber[6]`, indexed 0..5. -/
abbrev Digits := Fin 6 → Nat

/-- Snapshot of the DS3231 read by `ReadRealTimeClock()` into the globals
`nYear, nMonth, nDay, nHour, nMinute, nSecond, nDayOfTheWeek`
(`dayOfWeek = 0` is Sunday). -/
structure ClockTime where
  year : Nat
  month : Nat
  day : Nat
  hour : Nat
  minute : Nat
  second : Nat
  dayOfWeek : Nat
deriving DecidableEq

/-- One evaluation of the `AUTO_BST` block of `loop()` (lines 586–604).

Input: the fresh snapshot and the `bAutoChange` latch.  Output: the hour
adjustment issued to the RTC this cycle (`1` = `AdjustDHMS(true, nHourSpan)`,
one hour advance; `-1` = `AdjustDHMS(false, nHourSpan)`, one hour retard;
`0` = no RTC write) and the new latch value.  The code guards both triggers
with `dayOfTheWeek == 0 && day >= 25 && minute == 0 && second == 0 &&
!bAutoChange`; the spring trigger additionally needs `hour == 1 && month == 3`
and the autumn trigger `hour == 2 && month == 10` (mutually exclusive), each
setting the latch; afterwards the latch is cleared when `hour == 3` is seen
while it is set. -/
def dstStep (t : ClockTime) (latch : Bool) : Int × Bool :=
  let fire : Bool := decide (t.dayOfWeek = 0) && decide (25 ≤ t.day) &&
    decide (t.minute = 0) && decide (t.second = 0) && !latch
  let adj : Int :=
    if fire && decide (t.hour = 1) && decide (t.month = 3) then 1
    else if fire && decide (t.hour = 2) && decide (t.month = 10) then -1
    else 0
  let latch1 : Bool := latch || decide (adj ≠ 0)
  let latch2 : Bool := if latch1 && decide (t.hour = 3) then false else latch1
  (adj, latch2)

/-- The static state of `DisplayDigits()` compiled with `FADE`
(lines 254–309): `nOldNumber[6]`, the fade-out counter `nFadeOut` and the
fade-skip counter `nFadeSkip`. -/
structure FadeState where
  oldNumber : Digits
  fadeOut : Nat
  fadeSkip : Nat

/-- One execution of `DisplayDigits()` with `FADE` defined, restricted to its
state updates (the pin writes and `delay` calls display `oldNumber` for
`nFadeOut` ms and `cur` for `PERSIST - nFadeOut` ms per pair and carry no
state).  The for-loop sets `nFadeOut = PERSIST` when some cell of
`nOldNumber` differs from `nNumber` while `nFadeOut == 0`; then, if
`nFadeOut > 0`, `nFadeSkip` is decremented, and when it hits zero the
fade-out counter is decremented, `nOldNumber` is snapped to `nNumber` if the
counter reached zero, and `nFadeSkip` is reset to `FSKIP`. -/
def fadeScan (cur : Digits) (s : FadeState) : FadeState :=
  let fo := if (∃ j : Fin 6, s.oldNumber j ≠ cur j) ∧ s.fadeOut = 0 then PERSIST
    else s.fadeOut
  if 0 < fo then
    let sk := s.fadeSkip - 1
    if sk = 0 then
      let fo2 := fo - 1
      { oldNumber := if fo2 = 0 then cur else s.oldNumber
        fadeOut := fo2
        fadeSkip := FSKIP }
    else
      { s with fadeOut := fo, fadeSkip := sk }
  else
    { s with fadeOut := fo }

/-- The UI flags of `loop()` touched by the set button: `bTimeMode`,
`bSetMode`, `nPair`, `bSetButtonPressed` and `bPerDate`. -/
structure UIState where
  timeMode : Bool
  setMode : Bool
  pair : Nat
  setButtonPressed : Bool
  perDate : Bool
deriving DecidableEq

/-- The set-button handling of one execution of `loop()`: the blocking
long/short discrimination (lines 541–571) followed by the SET-mode release
handler (lines 611–621).

`down` is the level read from pin A0 at the top of the cycle (`true` =
pressed); when pressed, the code busy-polls in 10-millisecond steps,
incrementing `nSetTimer` once per step until release, so `hold` is the number
of 10 ms polling increments measured; `nSetTimer >= 70` (700 ms or more)
toggles SET/DISPLAY, and leaving SET mode resets `nPair` to 1 and clears
`bPerDate`.  After that block the pin level is high (the poll loop exits on
release), so the later SET-mode release handler fires whenever
`bSetButtonPressed` is still set: it advances `nPair` in the order 1, 2, 3
and back to 1, and clears the flag.  Note that neither the short-press path
nor the SET/DISPLAY toggle path clears `bSetButtonPressed` itself. -/
def setButtonCycle (down : Bool) (hold : Nat) (s : UIState) : UIState :=
  let s1 :=
    if down then
      let sp := { s with setButtonPressed := true }
      if 70 ≤ hold then
        let sm := !s.setMode
        if sm = false then { sp with setMode := sm, pair := 1, perDate := false }
        else { sp with setMode := sm }
      else sp
    else s
  if s1.setMode && s1.setButtonPressed then
    { s1 with pair := if 3 < s1.pair + 1 then 1 else s1.pair + 1
              setButtonPressed := false }
  else s1

/-- The cathode cleaning trigger guard (lines 944–949): the cleaning cycle
runs exactly when not in SET mode, the displayed minute's low digit
(`nMinuteLo = nMinute % 10`) equals 5 and the second equals 1. -/
def cleanTrigger (setMode : Bool) (minute second : Nat) : Bool :=
  !setMode && decide (minute % 10 = 5) && decide (second = 1)

/-- The `PERDATE` overlay flag update (lines 799–802): `bPerDate` is set when
the minute's low digit is 3 and the second is 1 with the overlay off, cleared
when the minute's low digit is 3 and the second is 10 with it on, and carried
over unchanged otherwise. -/
def perDateStep (perDate : Bool) (minute second : Nat) : Bool :=
  if decide (minute % 10 = 3) && decide (second = 1) && !perDate then true
  else if decide (minute % 10 = 3) && decide (second = 10) && perDate then false
  else perDate

/-- Hour digit decomposition with `CLOCK12` defined (lines 664–683): SET mode
always decomposes the raw 24-hour value; DISPLAY mode first maps the hour
through `nHour12` (`nHour` when `nHour <= 12`, else `nHour - 12`).  Returns
`(nHourHi, nHourLo)`. -/
def hourDigits (setMode : Bool) (hour : Nat) : Nat × Nat :=
  if setMode then (hour / 10, hour % 10)
  else
    let hour12 := if hour ≤ 12 then hour else hour - 12
    (hour12 / 10, hour12 % 10)

/-- The digit array composed in DISPLAY+TIME mode (lines 654–697 for the
high/low digit splits, lines 804–823 for the cell writes), as a function of
the overlay flag already updated this cycle.  Cell mapping: `nNumber[5]/[1]`
hold the leftmost tube pair, `[3]/[2]` the middle pair, `[4]/[0]` the
rightmost pair. -/
def displayTimeDigits (perDate : Bool) (t : ClockTime) : Digits :=
  let yearTwo := t.year % 100
  let yearLo := yearTwo % 10
  let yearHi := yearTwo / 10
  let monthLo := t.month % 10
  let monthHi := t.month / 10
  let dayLo := t.day % 10
  let dayHi := t.day / 10
  let hourHi := (hourDigits false t.hour).1
  let hourLo := (hourDigits false t.hour).2
  let minuteLo := t.minute % 10
  let minuteHi := t.minute / 10
  let secondLo := t.second % 10
  let secondHi := t.second / 10
  if perDate then ![yearLo, dayLo, monthLo, monthHi, yearHi, dayHi]
  else ![secondLo, hourLo, minuteLo, minuteHi, secondHi, hourHi]

/-- `AdjustMonth` (lines 383–409): the date-time value written to the RTC by
one month adjustment.  The month field (a `byte`, modelled modulo 256) is
incremented or decremented directly, wrapping 13 → 1 or 0 → 12 without
carrying into the year; the written `DateTime(nYear, nMonth, nDay, nHour,
nMinute, nSecond)` takes every other field from the snapshot (the day-of-week
is recomputed by the RTC and carried through here unchanged). -/
def adjustMonth (advance : Bool) (t : ClockTime) : ClockTime :=
  if advance then
    let m1 := (t.month + 1) % 256
    let m2 := if m1 = 13 then 1 else m1
    ⟨t.year, m2, t.day, t.hour, t.minute, t.second, t.dayOfWeek⟩
  else
    let m1 := (t.month + 255) % 256
    let m2 := if m1 = 0 then 12 else m1
    ⟨t.year, m2, t.day, t.hour, t.minute, t.second, t.dayOfWeek⟩

/-- `2^32`, the modulus of the Arduino `unsigned long` in which `millis()`
values and the blink arithmetic are computed. -/
def U32 : Nat := 4294967296

/-- Reset of the blink reference on `millis()` overflow (lines 705–706):
`if (nRunTime < nBlinkTime) nBlinkTime = 0;`.  Both variables hold `millis()`
readings below `U32`. -/
def blinkRef (runTime blinkTime : Nat) : Nat :=
  if runTime < blinkTime then 0 else blinkTime

/-- Blink bookkeeping of the Mode State Machine: `bBlink` and `nBlinkTime`. -/
structure BlinkState where
  blink : Bool
  blinkTime : Nat
deriving DecidableEq

/-- SET-mode digit composition for one cycle (lines 713–787 in TIME mode,
lines 852–921 in DATE mode), preceded by the overflow reset of lines
705–706.  The six-cell array is written only inside the 500 ms blink guard:
`nRunTime > nBlinkTime + 500` in TIME mode and `nRunTime - nBlinkTime > 500`
in DATE mode, both computed in 32-bit `unsigned long` arithmetic, so the
addition is `(bt + 500) % U32` (which wraps when `nBlinkTime` is within 500
of the counter's overflow) and the subtraction is `(runTime + U32 - bt) %
U32` (which the reset just made equal to `runTime - bt`).  On a guarded
cycle the blink flag toggles, the reference time is reset, and all six cells
are rewritten with the selected pair forced to `TOFF` when the flag lands
off; on any other cycle `nNumber` and `bBlink` are left untouched.  SET mode
uses the raw 24-hour digits. -/
def setModeCompose (timeMode : Bool) (runTime : Nat) (bs : BlinkState)
    (pair : Nat) (t : ClockTime) (num : Digits) : Digits × BlinkState :=
  let bt := blinkRef runTime bs.blinkTime
  let fire : Bool := if timeMode then decide ((bt + 500) % U32 < runTime)
    else decide (500 < (runTime + U32 - bt) % U32)
  if fire then
    let blink := !bs.blink
    let hourHi := (hourDigits true t.hour).1
    let hourLo := (hourDigits true t.hour).2
    let minuteLo := t.minute % 10
    let minuteHi := t.minute / 10
    let secondLo := t.second % 10
    let secondHi := t.second / 10
    let yearTwo := t.year % 100
    let yearLo := yearTwo % 10
    let yearHi := yearTwo / 10
    let monthLo := t.month % 10
    let monthHi := t.month / 10
    let dayLo := t.day % 10
    let dayHi := t.day / 10
    let num' :=
      if timeMode then
        if pair = 1 then
          ![secondLo, if blink then hourLo else TOFF, minuteLo, minuteHi,
            secondHi, if blink then hourHi else TOFF]
        else if pair = 2 then
          ![secondLo, hourLo, if blink then minuteLo else TOFF,
            if blink then minuteHi else TOFF, secondHi, hourHi]
        else if pair = 3 then
          ![if blink then secondLo else TOFF, hourLo, minuteLo, minuteHi,
            if blink then secondHi else TOFF, hourHi]
        else num
      else
        if pair = 1 then
          ![yearLo, if blink then dayLo else TOFF, monthLo, monthHi, yearHi,
            if blink then dayHi else TOFF]
        else if pair = 2 then
          ![yearLo, dayLo, if blink then monthLo else TOFF,
            if blink then monthHi else TOFF, yearHi, dayHi]
        else if pair = 3 then
          ![if blink then yearLo else TOFF, dayLo, monthLo, monthHi,
            if blink then yearHi else TOFF, dayHi]
        else num
    (num', ⟨blink, runTime⟩)
  else
    (num, ⟨bs.blink, bt⟩)

end Sixtube

namespace Sixtube

/-- C1: in a cycle whose snapshot is a Sunday with `day ≥ 25`, `minute = 0`,
`second = 0`, `month = March`, `hour = 1` and the latch not fired, the DST
auto-switch issues exactly one one-hour advance and sets the latch; while the
latch is set it never issues an adjustment; and with the latch set, the latch
is cleared after the cycle exactly when the observed hour is 3. -/
theorem dst_spring_once (t : ClockTime)
    (h : t.dayOfWeek = 0 ∧ 25 ≤ t.day ∧ t.minute = 0 ∧ t.second = 0 ∧
      t.month = 3 ∧ t.hour = 1) :
    dstStep t false = (1, true)
    ∧ (∀ u : ClockTime, (dstStep u true).1 = 0)
    ∧ (∀ u : ClockTime, ((dstStep u true).2 = false ↔ u.hour = 3)) := by
  obtain ⟨h1, h2, h3, h4, h5, h6⟩ := h
  refine ⟨?_, ?_, ?_⟩
  · simp [dstStep, h1, h2, h3, h4, h5, h6]
  · intro u
    simp [dstStep]
  · intro u
    by_cases hu : u.hour = 3 <;> simp [dstStep, hu]

/-- Witness for `dst_spring_once` at the concrete snapshot
2022-03-27 01:00:00, a Sunday. -/
theorem dst_spring_once_witness :
    ((2022 : Nat) = 2022 ∧ (0 : Nat) = 0) ∧
    (dstStep ⟨2022, 3, 27, 1, 0, 0, 0⟩ false = (1, true)
    ∧ (∀ u : ClockTime, (dstStep u true).1 = 0)
    ∧ (∀ u : ClockTime, ((dstStep u true).2 = false ↔ u.hour = 3))) :=
  ⟨⟨rfl, rfl⟩, dst_spring_once ⟨2022, 3, 27, 1, 0, 0, 0⟩
    ⟨rfl, by decide, rfl, rfl, rfl, rfl⟩⟩

/-- A scan with the fade in progress and the skip counter due (`nFadeSkip = 1`)
or not due. -/
lemma fadeScan_busy (cur old : Digits) (fov sk : Nat) (h : 0 < fov) :
    fadeScan cur ⟨old, fov, sk⟩ =
      if sk - 1 = 0 then ⟨if fov - 1 = 0 then cur else old, fov - 1, FSKIP⟩
      else ⟨old, fov, sk - 1⟩ := by
  have hne : fov ≠ 0 := Nat.pos_iff_ne_zero.mp h
  simp only [fadeScan, hne, and_false, if_false, h, if_pos]

/-- A scan starting a transition: counter zero, some cell changed. -/
lemma fadeScan_start (cur old : Digits) (hdiff : ∃ j : Fin 6, old j ≠ cur j) :
    fadeScan cur ⟨old, 0, FSKIP⟩ = ⟨old, PERSIST, 1⟩ := by
  simp [fadeScan, hdiff, PERSIST, FSKIP]

/-- A scan with no transition in progress and no cell changed is a no-op. -/
lemma fadeScan_same (cur old : Digits) (sk : Nat) (hsame : ∀ j, old j = cur j) :
    fadeScan cur ⟨old, 0, sk⟩ = ⟨old, 0, sk⟩ := by
  simp [fadeScan, hsame]

/-- C2: with `PERSIST = 7` and `FSKIP = 2`, (i) the fade-out counter is set to
`PERSIST` exactly by a scan where some cell changed while the counter is zero
(the skip counter being at its idle value `FSKIP`); (ii) a scan with no
change and no fade in progress changes nothing; (iii) while the counter is
nonzero it is never reset, only decremented, and only on the scans where the
skip counter is due, i.e. once every `FSKIP` scans (two consecutive scans
from a due point decrement it exactly once); (iv) `previousDigits`
(`nOldNumber`) is snapped to the current digits exactly at the scan where the
counter reaches zero, never before. -/
theorem fade_transition (cur : Digits) (s : FadeState)
    (hsk : s.fadeSkip = 1 ∨ s.fadeSkip = FSKIP) :
    (s.fadeOut = 0 → s.fadeSkip = FSKIP → (∃ j : Fin 6, s.oldNumber j ≠ cur j) →
      fadeScan cur s = ⟨s.oldNumber, PERSIST, FSKIP - 1⟩)
    ∧ (s.fadeOut = 0 → (∀ j, s.oldNumber j = cur j) → fadeScan cur s = s)
    ∧ (0 < s.fadeOut →
      (fadeScan cur s).fadeOut =
        if s.fadeSkip = 1 then s.fadeOut - 1 else s.fadeOut)
    ∧ (0 < s.fadeOut →
      (fadeScan cur s).oldNumber =
        if s.fadeOut = 1 ∧ s.fadeSkip = 1 then cur else s.oldNumber)
    ∧ (2 ≤ s.fadeOut → s.fadeSkip = FSKIP →
      (fadeScan cur (fadeScan cur s)).fadeOut = s.fadeOut - 1
      ∧ (fadeScan cur (fadeScan cur s)).fadeSkip = FSKIP
      ∧ (fadeScan cur (fadeScan cur s)).oldNumber = s.oldNumber) := by
  obtain ⟨old, fov, skv⟩ := s
  simp only at hsk ⊢
  refine ⟨?_, ?_, ?_, ?_, ?_⟩
  · intro h0 hskF hdiff
    subst h0; subst hskF
    simpa [FSKIP] using fadeScan_start cur old hdiff
  · intro h0 hsame
    subst h0
    exact fadeScan_same cur old skv hsame
  · intro hpos
    rcases hsk with h1 | h2
    · subst h1
      rw [fadeScan_busy cur old fov 1 hpos]
      simp
    · subst h2
      rw [fadeScan_busy cur old fov FSKIP hpos]
      simp [FSKIP]
  · intro hpos
    rcases hsk with h1 | h2
    · subst h1
      rw [fadeScan_busy cur old fov 1 hpos]
      by_cases hf : fov = 1
      · simp [hf]
      · have : fov - 1 ≠ 0 := by omega
        simp [this, hf]
    · subst h2
      rw [fadeScan_busy cur old fov FSKIP hpos]
      simp [FSKIP]
  · intro h2 hskF
    subst hskF
    have hpos : 0 < fov := by omega
    have e1 : fadeScan cur ⟨old, fov, FSKIP⟩ = ⟨old, fov, 1⟩ := by
      rw [fadeScan_busy cur old fov FSKIP hpos]
      simp [FSKIP]
    have e2 : fadeScan cur ⟨old, fov, 1⟩ = ⟨old, fov - 1, FSKIP⟩ := by
      rw [fadeScan_busy cur old fov 1 hpos]
      have : fov - 1 ≠ 0 := by omega
      simp [this]
    rw [e1, e2]
    exact ⟨rfl, rfl, rfl⟩

/-- Witness for `fade_transition` with every antecedent discharged at a
concrete input: a change arriving in the idle state `⟨all TOFF, 0, FSKIP⟩`
starts the fade at `PERSIST = 7`; at the mid-fade state `⟨all TOFF, 1, 1⟩`
the due scan decrements the counter to 0 and snaps `oldNumber` to the new
digits; and from `⟨all TOFF, 7, FSKIP⟩` two consecutive scans decrement the
counter exactly once without snapping. -/
theorem fade_transition_witness :
    (((⟨(fun _ => TOFF), 0, 2⟩ : FadeState).fadeSkip = 1 ∨
        (⟨(fun _ => TOFF), 0, 2⟩ : FadeState).fadeSkip = FSKIP)
      ∧ (∃ j : Fin 6, (fun _ => TOFF : Digits) j ≠ (fun _ => 5 : Digits) j)
      ∧ (0 : Nat) < 1 ∧ (2 : Nat) ≤ 7) ∧
    (fadeScan (fun _ => 5) ⟨(fun _ => TOFF), 0, 2⟩ =
        ⟨(fun _ => TOFF), PERSIST, FSKIP - 1⟩
    ∧ (fadeScan (fun _ => 5) ⟨(fun _ => TOFF), 1, 1⟩).fadeOut =
        (if (1 : Nat) = 1 then 1 - 1 else 1)
    ∧ (fadeScan (fun _ => 5) ⟨(fun _ => TOFF), 1, 1⟩).oldNumber =
        (if (1 : Nat) = 1 ∧ (1 : Nat) = 1 then (fun _ => 5 : Digits)
          else (fun _ => TOFF))
    ∧ ((fadeScan (fun _ => 5) (fadeScan (fun _ => 5)
          ⟨(fun _ => TOFF), 7, 2⟩)).fadeOut = 7 - 1
      ∧ (fadeScan (fun _ => 5) (fadeScan (fun _ => 5)
          ⟨(fun _ => TOFF), 7, 2⟩)).fadeSkip = FSKIP
      ∧ (fadeScan (fun _ => 5) (fadeScan (fun _ => 5)
          ⟨(fun _ => TOFF), 7, 2⟩)).oldNumber = (fun _ => TOFF))) :=
  ⟨⟨Or.inr rfl, by decide, by decide, by decide⟩,
    (fade_transition (fun _ => 5) ⟨(fun _ => TOFF), 0, 2⟩ (Or.inr rfl)).1
      rfl rfl (by decide),
    (fade_transition (fun _ => 5) ⟨(fun _ => TOFF), 1, 1⟩ (Or.inl rfl)).2.2.1
      (by decide),
    (fade_transition (fun _ => 5) ⟨(fun _ => TOFF), 1, 1⟩ (Or.inl rfl)).2.2.2.1
      (by decide),
    (fade_transition (fun _ => 5) ⟨(fun _ => TOFF), 7, 2⟩ (Or.inr rfl)).2.2.2.2
      (by decide) rfl⟩

/-- C3: a short release of the set button (hold below the 70-increment
threshold) while in SET mode advances the selected pair cyclically
1 → 2 → 3 → 1 (leaving SET/DISPLAY and TIME/DATE modes alone), and while in
DISPLAY mode leaves the mode flags and the selected pair unchanged. -/
theorem pair_selection_cycles (s : UIState) (hold : Nat)
    (hshort : hold < 70) (hp : s.pair = 1 ∨ s.pair = 2 ∨ s.pair = 3) :
    (s.setMode = true →
      (setButtonCycle true hold s).pair = s.pair % 3 + 1
      ∧ (setButtonCycle true hold s).setMode = true
      ∧ (setButtonCycle true hold s).timeMode = s.timeMode)
    ∧ (s.setMode = false →
      (setButtonCycle true hold s).setMode = false
      ∧ (setButtonCycle true hold s).timeMode = s.timeMode
      ∧ (setButtonCycle true hold s).pair = s.pair) := by
  have h70 : ¬ (70 ≤ hold) := by omega
  constructor
  · intro hsm
    rcases hp with h | h | h <;> simp [setButtonCycle, h70, hsm, h]
  · intro hsm
    simp [setButtonCycle, h70, hsm]

/-- Witness for `pair_selection_cycles`: a 100 ms short release in SET mode
with pair 1 selected moves the selection to pair 2. -/
theorem pair_selection_cycles_witness :
    ((10 : Nat) < 70) ∧
    ((setButtonCycle true 10 ⟨true, true, 1, false, false⟩).pair = 1 % 3 + 1
    ∧ (setButtonCycle true 10 ⟨true, true, 1, false, false⟩).setMode = true
    ∧ (setButtonCycle true 10 ⟨true, true, 1, false, false⟩).timeMode = true) :=
  ⟨by decide,
    (pair_selection_cycles ⟨true, true, 1, false, false⟩ 10 (by decide)
      (Or.inl rfl)).1 rfl⟩

/-- C4 counterexample: a hold measured at exactly 699 polling increments is
classified LONG by the code — it toggles DISPLAY into SET mode — because the
threshold is `nSetTimer >= 70` increments (70 × 10 ms = 700 ms), not 700
increments; the claim says 699 increments classifies as short. -/
theorem long_press_699_counterexample :
    (setButtonCycle true 699 ⟨true, false, 1, false, false⟩).setMode = true := by
  decide

/-- C4 amended: the blocking measurement counts fixed 10-millisecond polling
increments until release, and the press toggles SET/DISPLAY mode (classifies
long) if and only if the count reaches 70 increments, the 700 ms threshold:
69 increments classifies as short, 70 or more as long. -/
theorem long_press_threshold (s : UIState) (hold : Nat) :
    (setButtonCycle true hold s).setMode =
      (if 70 ≤ hold then !s.setMode else s.setMode) := by
  by_cases h : 70 ≤ hold <;> by_cases hm : s.setMode <;>
    simp [setButtonCycle, h, hm]

/-- C9: a long press taken while in DISPLAY mode with pair 1 selected toggles
into SET mode, and because `bSetButtonPressed` is still set when the SET-mode
release handler runs later in the same cycle, the selected pair is advanced
from 1 to 2 within that very cycle (and the flag is cleared): the first pair
seen selected on entering SET mode is pair 2, not pair 1. -/
theorem enter_set_mode_pair_advances (s : UIState) (hold : Nat)
    (hdisp : s.setMode = false) (hpair : s.pair = 1) (hlong : 70 ≤ hold) :
    (setButtonCycle true hold s).setMode = true
    ∧ (setButtonCycle true hold s).pair = 2
    ∧ (setButtonCycle true hold s).setButtonPressed = false := by
  simp [setButtonCycle, hdisp, hpair, hlong]

/-- Witness for `enter_set_mode_pair_advances` at a 7-second press from
DISPLAY+TIME with pair 1. -/
theorem enter_set_mode_pair_advances_witness :
    (((⟨true, false, 1, false, false⟩ : UIState).setMode = false)
      ∧ ((⟨true, false, 1, false, false⟩ : UIState).pair = 1)
      ∧ (70 : Nat) ≤ 700) ∧
    ((setButtonCycle true 700 ⟨true, false, 1, false, false⟩).setMode = true
    ∧ (setButtonCycle true 700 ⟨true, false, 1, false, false⟩).pair = 2
    ∧ (setButtonCycle true 700 ⟨true, false, 1, false, false⟩).setButtonPressed = false) :=
  ⟨⟨rfl, rfl, by decide⟩,
    enter_set_mode_pair_advances ⟨true, false, 1, false, false⟩ 700 rfl rfl (by decide)⟩

/-- C5 counterexample: the trigger condition `nMinuteLo == 5 && nSecond == 1`
holds at minute 5, second 1 and again at minute 15, second 1 of the same
hour, so the cleaning cycle triggers more than once per hour. -/
theorem clean_trigger_counterexample :
    cleanTrigger false 5 1 = true ∧ cleanTrigger false 15 1 = true
    ∧ (5 : Nat) ≠ 15 := by decide

/-- C5 amended: the cathode cleaning cycle triggers exactly at the cycles
where the displayed minute's low digit equals 5 and the second equals 1, and
never while SET mode is active; an hour contains six such minutes (5, 15, 25,
35, 45, 55), i.e. the cycle triggers once every ten minutes, not once per
hour. -/
theorem clean_trigger_characterisation (setMode : Bool) (minute second : Nat) :
    (cleanTrigger setMode minute second = true ↔
      (setMode = false ∧ minute % 10 = 5 ∧ second = 1))
    ∧ ((Finset.range 60).filter (fun m => cleanTrigger false m 1 = true)).card
        = 6 := by
  constructor
  · cases setMode <;> simp [cleanTrigger, and_assoc]
  · decide

/-- C6: the periodic date overlay activates exactly when the minute's low
digit is 3 and the second is 1 with the overlay off, stays active while the
second progresses 1 through 9, deactivates exactly when the minute's low
digit is 3 and the second is 10, and while active the six cells hold the
day/month/year digits instead of the time digits. -/
theorem periodic_date_overlay (m s : Nat) (t : ClockTime) :
    (perDateStep false m s = true ↔ (m % 10 = 3 ∧ s = 1))
    ∧ (perDateStep true m s = false ↔ (m % 10 = 3 ∧ s = 10))
    ∧ (m % 10 = 3 → 1 ≤ s → s ≤ 9 → perDateStep true m s = true)
    ∧ displayTimeDigits true t =
        ![t.year % 100 % 10, t.day % 10, t.month % 10, t.month / 10,
          t.year % 100 / 10, t.day / 10]
    ∧ displayTimeDigits false t =
        ![t.second % 10, (hourDigits false t.hour).2, t.minute % 10,
          t.minute / 10, t.second / 10, (hourDigits false t.hour).1] := by
  refine ⟨?_, ?_, ?_, rfl, rfl⟩
  · simp [perDateStep]
  · simp [perDateStep]
  · intro h3 h1 h9
    have hs : s ≠ 10 := by omega
    simp [perDateStep, hs]

/-- Witness for `periodic_date_overlay`: at minute 13, second 5 the overlay
stays on. -/
theorem periodic_date_overlay_witness :
    ((13 : Nat) % 10 = 3 ∧ (1 : Nat) ≤ 5 ∧ (5 : Nat) ≤ 9) ∧
    perDateStep true 13 5 = true :=
  ⟨by decide, (periodic_date_overlay 13 5 ⟨2022, 12, 31, 23, 13, 5, 6⟩).2.2.1
    (by decide) (by decide) (by decide)⟩

/-- C7: the month adjustment is field-level: advancing from month 12 yields
month 1 and retarding from month 1 yields month 12, in both cases leaving the
year unchanged, and in all cases the day, hour, minute and second written to
the RTC equal the snapshot's values. -/
theorem adjust_month_field_level (t : ClockTime) :
    (t.month = 12 →
      (adjustMonth true t).month = 1 ∧ (adjustMonth true t).year = t.year)
    ∧ (t.month = 1 →
      (adjustMonth false t).month = 12 ∧ (adjustMonth false t).year = t.year)
    ∧ (∀ b : Bool, (adjustMonth b t).day = t.day
        ∧ (adjustMonth b t).hour = t.hour
        ∧ (adjustMonth b t).minute = t.minute
        ∧ (adjustMonth b t).second = t.second) := by
  refine ⟨?_, ?_, ?_⟩
  · intro h; simp [adjustMonth, h]
  · intro h; simp [adjustMonth, h]
  · intro b; cases b <;> simp [adjustMonth]

/-- Witness for `adjust_month_field_level`: December 2022 advances to January
2022, January 2022 retards to December 2022. -/
theorem adjust_month_field_level_witness :
    (((⟨2022, 12, 31, 23, 59, 58, 6⟩ : ClockTime).month = 12)
      ∧ ((⟨2022, 1, 31, 23, 59, 58, 6⟩ : ClockTime).month = 1)) ∧
    ((adjustMonth true ⟨2022, 12, 31, 23, 59, 58, 6⟩).month = 1
      ∧ (adjustMonth true ⟨2022, 12, 31, 23, 59, 58, 6⟩).year = 2022)
    ∧ ((adjustMonth false ⟨2022, 1, 31, 23, 59, 58, 6⟩).month = 12
      ∧ (adjustMonth false ⟨2022, 1, 31, 23, 59, 58, 6⟩).year = 2022) :=
  ⟨⟨rfl, rfl⟩,
    (adjust_month_field_level ⟨2022, 12, 31, 23, 59, 58, 6⟩).1 rfl,
    (adjust_month_field_level ⟨2022, 1, 31, 23, 59, 58, 6⟩).2.1 rfl⟩

/-- C8: hour digit decomposition: SET mode always decomposes the raw 24-hour
value; DISPLAY mode under the 12-hour configuration passes hours up to 12
(including 0) through unchanged — so hour 0 renders as 0, not 12 — and
subtracts 12 from hours above 12, so hour 13 renders as 1. -/
theorem hour_digit_decomposition (h : Nat) :
    hourDigits true h = (h / 10, h % 10)
    ∧ (h ≤ 12 → hourDigits false h = (h / 10, h % 10))
    ∧ (12 < h → hourDigits false h = ((h - 12) / 10, (h - 12) % 10))
    ∧ hourDigits false 0 = (0, 0)
    ∧ hourDigits false 13 = (0, 1) := by
  refine ⟨rfl, ?_, ?_, rfl, rfl⟩
  · intro hle; simp [hourDigits, hle]
  · intro hgt
    have hnle : ¬ h ≤ 12 := by omega
    simp [hourDigits, hnle]

/-- Witness for `hour_digit_decomposition` at hour 13. -/
theorem hour_digit_decomposition_witness :
    ((12 : Nat) < 13) ∧ hourDigits false 13 = ((13 - 12) / 10, (13 - 12) % 10) :=
  ⟨by decide, (hour_digit_decomposition 13).2.2.1 (by decide)⟩

/-- C10 counterexample: at `nBlinkTime = 2^32 - 300` and `nRunTime =
2^32 - 100` — valid `millis()` readings 200 ms after the last blink toggle,
with the overflow reset not firing — the TIME-mode guard `nRunTime >
nBlinkTime + 500` wraps in 32-bit arithmetic (`nBlinkTime + 500` overflows
to 200) and fires, rewriting the six cells within 500 ms of the toggle; the
claim says every such cycle leaves all six cells unchanged. -/
theorem blink_guard_wrap_counterexample :
    (4294967196 : Nat) - blinkRef 4294967196 4294966996 < 500
    ∧ (setModeCompose true 4294967196 ⟨false, 4294966996⟩ 1
        ⟨2022, 1, 2, 3, 4, 5, 6⟩ (fun _ => TOFF)).1 ≠ (fun _ => TOFF) := by
  decide

/-- C10 amended: in SET mode the six-cell array is written only inside the
500 ms blink guard: on any cycle where fewer than 500 milliseconds have
elapsed since the last blink toggle (after the overflow reset of the
reference point), all six display cells and the blink flag are left
unchanged — unconditionally in DATE mode, and in TIME mode provided the
guard addition `nBlinkTime + 500` does not overflow the 32-bit counter
(reference at most `2^32 - 501`) — so between toggles the non-selected pairs
keep stale field values rather than the freshly read snapshot. -/
theorem set_mode_blink_guard_stale (timeMode : Bool) (runTime : Nat)
    (bs : BlinkState) (pair : Nat) (t : ClockTime) (num : Digits)
    (hrun : runTime < U32)
    (h : runTime - blinkRef runTime bs.blinkTime < 500)
    (hnowrap : timeMode = true → blinkRef runTime bs.blinkTime + 500 < U32) :
    (setModeCompose timeMode runTime bs pair t num).1 = num
    ∧ (setModeCompose timeMode runTime bs pair t num).2.blink = bs.blink := by
  have hle : blinkRef runTime bs.blinkTime ≤ runTime := by
    unfold blinkRef; split <;> omega
  cases timeMode
  · have e1 : runTime + U32 - blinkRef runTime bs.blinkTime =
        (runTime - blinkRef runTime bs.blinkTime) + U32 := by omega
    have e2 : (runTime + U32 - blinkRef runTime bs.blinkTime) % U32 =
        runTime - blinkRef runTime bs.blinkTime := by
      rw [e1, Nat.add_mod_right]
      exact Nat.mod_eq_of_lt (by omega)
    have h2 : ¬ (500 < (runTime + U32 - blinkRef runTime bs.blinkTime) % U32) := by
      rw [e2]; omega
    simp [setModeCompose, h2]
  · have hw : blinkRef runTime bs.blinkTime + 500 < U32 := hnowrap rfl
    have e : (blinkRef runTime bs.blinkTime + 500) % U32 =
        blinkRef runTime bs.blinkTime + 500 := Nat.mod_eq_of_lt hw
    have h1 : ¬ ((blinkRef runTime bs.blinkTime + 500) % U32 < runTime) := by
      rw [e]; omega
    simp [setModeCompose, h1]

/-- Witness for `set_mode_blink_guard_stale`: 200 ms after a toggle recorded
at 800 ms of uptime (no wrap near), a blank array stays blank. -/
theorem set_mode_blink_guard_stale_witness :
    ((1000 : Nat) < U32 ∧ (1000 : Nat) - blinkRef 1000 800 < 500
      ∧ blinkRef 1000 800 + 500 < U32) ∧
    ((setModeCompose true 1000 ⟨false, 800⟩ 1 ⟨2022, 1, 2, 3, 4, 5, 6⟩
        (fun _ => TOFF)).1 = (fun _ => TOFF)
    ∧ (setModeCompose true 1000 ⟨false, 800⟩ 1 ⟨2022, 1, 2, 3, 4, 5, 6⟩
        (fun _ => TOFF)).2.blink = false) :=
  ⟨⟨by decide, by decide, by decide⟩,
    set_mode_blink_guard_stale true 1000 ⟨false, 800⟩ 1 ⟨2022, 1, 2, 3, 4, 5, 6⟩
      (fun _ => TOFF) (by decide) (by decide) (fun _ => by decide)⟩

end Sixtube
